import Mathlib

/-!
Shallow embedding of `src/api/managed-records.js`: a client-side helper that
queries a paginated `/records` endpoint and transforms the raw records into a
formatted page object.  JS arrays become `List`, JS objects become structures,
`null`/`undefined` become `Option`, promise rejection becomes `Except.error`.
-/

/-- A record returned by the `/records` endpoint.  `isPrimary` is the field
that `filterOpenRecs` adds to open records; before annotation it is absent,
modelled as `none`. -/
structure Record where
  id : Int
  color : String
  disposition : String
  isPrimary : Option Bool := none
deriving DecidableEq

/-- The `defaults` object of the source file. -/
structure Defaults where
  colors : List String
  limit : Nat

def defaults : Defaults :=
  { colors := ["red", "brown", "blue", "yellow", "green"], limit := 10 }

/-- `calcOffset(page = 1, limit = defaults.limit)`:
`return (page - 1) * limit;` -/
def calcOffset (page : Int := 1) (limit : Nat := defaults.limit) : Int :=
  (page - 1) * (limit : Int)

/-- The options object accepted by `buildUrlOpts`; each field may be absent
(`undefined`), in which case the destructuring default applies. -/
structure BuildOpts where
  limit : Option Nat := none
  colors : Option (List String) := none
  page : Option Int := none

/-- The query-parameter object `buildUrlOpts` returns.  `colorList` is the
JS key `"color[]"`. -/
structure UrlOpts where
  colorList : List String
  offset : Int
  limit : Nat
deriving DecidableEq

/-- `buildUrlOpts({limit = defaults.limit, colors = defaults.colors, page = 1})`:
returns `{ "color[]": colors, offset: calcOffset(page, limit), limit: limit + 1 }`. -/
def buildUrlOpts (o : BuildOpts) : UrlOpts :=
  let limit := o.limit.getD defaults.limit
  let colors := o.colors.getD defaults.colors
  let page := o.page.getD 1
  { colorList := colors
    offset := calcOffset page limit
    limit := limit + 1 }

/-- `isPrimeColor(color)`: `["red", "blue", "yellow"].indexOf(color) !== -1`,
i.e. membership of `color` in the primary-color list. -/
def isPrimeColor (color : String) : Bool :=
  (["red", "blue", "yellow"] : List String).contains color

/-- `getIds(records)`: `records.map((record) => (record.id))`. -/
def getIds (records : List Record) : List Int :=
  records.map (fun record => record.id)

/-- The annotated record `filterOpenRecs` pushes: the input record with
`record.isPrimary = isPrimeColor(color)` set on it. -/
def annotateOpen (record : Record) : Record :=
  { record with isPrimary := some (isPrimeColor record.color) }

/-- `filterOpenRecs(records)`: a `reduce` that pushes each record whose
`disposition === "open"` onto the accumulator, after setting `isPrimary`. -/
def filterOpenRecs (records : List Record) : List Record :=
  records.foldl
    (fun opens record =>
      if record.disposition = "open" then opens ++ [annotateOpen record]
      else opens)
    []

/-- `getClosedPrime(records)`: `records.filter((record) =>
disposition === "closed" && isPrimeColor(color))`. -/
def getClosedPrime (records : List Record) : List Record :=
  records.filter (fun record => record.disposition == "closed" && isPrimeColor record.color)

/-- The argument object of `formatFinal`; `curPage` has no default in the
source, `limit` and `records` do. -/
structure FormatOpts where
  curPage : Int
  limit : Nat := defaults.limit
  records : List Record := []

/-- The formatted page object `formatFinal` returns.  `«open»` is the JS key
`open`. -/
structure FormattedPage where
  ids : List Int
  «open» : List Record
  closedPrimaryCount : Nat
  previousPage : Option Int
  nextPage : Option Int
deriving DecidableEq

/-- `formatFinal({curPage, limit = defaults.limit, records = []})`. -/
def formatFinal (o : FormatOpts) : FormattedPage :=
  let previousPage : Option Int := if o.curPage = 1 then none else some (o.curPage - 1)
  let nextPage : Option Int := if o.records.length ≤ o.limit then none else some (o.curPage + 1)
  let finalRecs := o.records.take o.limit
  { ids := getIds finalRecs
    «open» := filterOpenRecs finalRecs
    closedPrimaryCount := (getClosedPrime finalRecs).length
    previousPage := previousPage
    nextPage := nextPage }

/-- A fetch response as consumed by `verifyStatus`: status, status text, and
the outcome of `response.json()` (which may itself fail to parse). -/
structure Response where
  status : Int
  statusText : String
  json : Except String (List Record)

/-- `verifyStatus(response)`: resolve `response.json()` when the status is in
`[200, 300)`, otherwise `throw Error(statusText)`. -/
def verifyStatus (response : Response) : Except String (List Record) :=
  if 200 ≤ response.status ∧ response.status < 300 then response.json
  else Except.error response.statusText

/-- `getRecords(url)`: the fetch outcome piped through `verifyStatus`; a
transport failure or a `verifyStatus` throw rejects the promise.  The fetch
outcome for the built URL is the `fetchResult` argument. -/
def getRecords (fetchResult : Except String Response) : Except String (List Record) :=
  fetchResult.bind verifyStatus

/-- `retrievePromise(formatOpts)`: resolves with `formatFinal(formatOpts)`,
rejecting any error the transform throws (`formatFinal` is total here, so the
result is always `ok`). -/
def retrievePromise (formatOpts : FormatOpts) : Except String FormattedPage :=
  Except.ok (formatFinal formatOpts)

/-- The diagnostic `retrieve` logs on failure:
`An error occurred during the request. ${error}`. -/
def errorLog (error : String) : String :=
  "An error occurred during the request. " ++ error

/-- The `.catch` at the end of `retrieve`: a rejected chain is turned into a
resolved `undefined` together with the logged diagnostic; a fulfilled chain
passes through with nothing logged. -/
def catchLog : Except String FormattedPage → Option FormattedPage × List String
  | Except.ok value => (some value, [])
  | Except.error e => (none, [errorLog e])

/-- The options object accepted by `retrieve`. -/
structure RetrieveOptions where
  page : Option Int := none
  colors : Option (List String) := none

/-- JS `value || fallback` on the `page` option: `undefined` and `0` are
falsy. -/
def jsOr (value : Option Int) (fallback : Int) : Int :=
  match value with
  | none => fallback
  | some v => if v = 0 then fallback else v

/-- `retrieve(options = {})`: fetch the records for the built URL (the fetch
outcome is the `fetchResult` argument), feed them to `retrievePromise` with
`curPage = options.page || 1` and `limit = defaults.limit`, and catch any
failure, logging it and resolving with `undefined`. -/
def retrieve (options : RetrieveOptions) (fetchResult : Except String Response) :
    Option FormattedPage × List String :=
  catchLog ((getRecords fetchResult).bind (fun records =>
    retrievePromise { curPage := jsOr options.page 1, limit := defaults.limit,
                      records := records }))

/-! ## Supporting lemmas -/

/-- `isPrimeColor` holds exactly on the three primary color strings. -/
theorem isPrimeColor_iff (color : String) :
    isPrimeColor color = true ↔ (color = "red" ∨ color = "blue" ∨ color = "yellow") := by
  simp [isPrimeColor]

/-- The `reduce` in `filterOpenRecs`, started from any accumulator, appends the
annotated open records in order. -/
theorem filterOpenRecs_foldl (l acc : List Record) :
    (l.foldl
      (fun opens record =>
        if record.disposition = "open" then opens ++ [annotateOpen record]
        else opens)
      acc)
    = acc ++ (l.filter (fun record => record.disposition == "open")).map annotateOpen := by
  induction l generalizing acc with
  | nil => simp
  | cons r t ih =>
    by_cases h : r.disposition = "open"
    · simp [h, ih, List.filter_cons]
    · simp [h, ih, List.filter_cons]

/-- `filterOpenRecs` is the filter-then-annotate of the open records. -/
theorem filterOpenRecs_eq (l : List Record) :
    filterOpenRecs l
    = (l.filter (fun record => record.disposition == "open")).map annotateOpen := by
  simpa using filterOpenRecs_foldl l []

/-! ## Claims -/

/-- Claim C1: for every records array, `curPage` and `limit`, `formatFinal`
yields `nextPage = curPage + 1` when the records overflow the limit
(`length > limit`, in particular `length = limit + 1`) and `nextPage = null`
when `length ≤ limit`. -/
theorem formatFinal_nextPage (curPage : Int) (limit : Nat) (records : List Record) :
    (limit < records.length →
      (formatFinal { curPage := curPage, limit := limit, records := records }).nextPage
        = some (curPage + 1)) ∧
    (records.length ≤ limit →
      (formatFinal { curPage := curPage, limit := limit, records := records }).nextPage
        = none) := by
  constructor
  · intro h
    simp [formatFinal, Nat.not_le.mpr h]
  · intro h
    simp [formatFinal, h]

/-- Closed instance of `formatFinal_nextPage`: two records with limit 1 give
`nextPage = 3` from page 2. -/
theorem formatFinal_nextPage_witness :
    (formatFinal
        { curPage := 2, limit := 1,
          records := [⟨1, "red", "open", none⟩, ⟨2, "green", "closed", none⟩] }).nextPage
      = some 3 :=
  (formatFinal_nextPage 2 1 [⟨1, "red", "open", none⟩, ⟨2, "green", "closed", none⟩]).1
    (by decide)

/-- Claim C2: `formatFinal` yields `previousPage = null` exactly when
`curPage = 1`, and `previousPage = curPage - 1` otherwise. -/
theorem formatFinal_previousPage (curPage : Int) (limit : Nat) (records : List Record) :
    ((formatFinal { curPage := curPage, limit := limit, records := records }).previousPage
        = none ↔ curPage = 1) ∧
    (curPage ≠ 1 →
      (formatFinal { curPage := curPage, limit := limit, records := records }).previousPage
        = some (curPage - 1)) := by
  constructor
  · by_cases h : curPage = 1 <;> simp [formatFinal, h]
  · intro h
    simp [formatFinal, h]

/-- Closed instance of `formatFinal_previousPage`: page 3 gives
`previousPage = 2`. -/
theorem formatFinal_previousPage_witness :
    (formatFinal { curPage := 3, limit := 10, records := [] }).previousPage = some 2 :=
  (formatFinal_previousPage 3 10 []).2 (by decide)

/-- Claim C3: for every `page ≥ 1` and every `limit`, the `offset` query
parameter produced by `buildUrlOpts` equals `(page - 1) * limit`. -/
theorem buildUrlOpts_offset (page : Int) (limit : Nat) (colors : Option (List String))
    (h : 1 ≤ page) :
    (buildUrlOpts { limit := some limit, colors := colors, page := some page }).offset
      = (page - 1) * limit := rfl

/-- Closed instance of `buildUrlOpts_offset`: page 3, limit 10 gives
offset 20. -/
theorem buildUrlOpts_offset_witness :
    (buildUrlOpts { limit := some 10, colors := none, page := some 3 }).offset
      = (3 - 1) * 10 :=
  buildUrlOpts_offset 3 10 none (by decide)

/-- Claim C4: for every options value — any page, any explicit or defaulted
limit — the `limit` query parameter sent to the endpoint is one more than the
requested page size. -/
theorem buildUrlOpts_limit (o : BuildOpts) :
    (buildUrlOpts o).limit = o.limit.getD defaults.limit + 1 := rfl

/-- Claim C5: `formatFinal` returns as `ids` the ids of the first
`min(records.length, limit)` records in input order; in particular `ids` has
length `min(records.length, limit)`. -/
theorem formatFinal_ids (curPage : Int) (limit : Nat) (records : List Record) :
    (formatFinal { curPage := curPage, limit := limit, records := records }).ids
      = (records.take limit).map (fun record => record.id) ∧
    (formatFinal { curPage := curPage, limit := limit, records := records }).ids.length
      = min records.length limit := by
  constructor
  · rfl
  · simp [formatFinal, getIds, Nat.min_comm]

/-- Claim C6: every record in `formatFinal`'s `open` list has
`disposition = "open"` and `isPrimary = true` exactly when its color is one of
`"red"`, `"blue"`, `"yellow"`; and `open` is exactly the annotated open records
of the first-`limit` slice in their original relative order. -/
theorem formatFinal_open (curPage : Int) (limit : Nat) (records : List Record) :
    (formatFinal { curPage := curPage, limit := limit, records := records }).«open»
      = ((records.take limit).filter
          (fun record => record.disposition == "open")).map annotateOpen ∧
    (∀ r, r ∈ (formatFinal { curPage := curPage, limit := limit, records := records }).«open» →
      r.disposition = "open" ∧
      (r.isPrimary = some true ↔ (r.color = "red" ∨ r.color = "blue" ∨ r.color = "yellow"))) := by
  have hopen :
      (formatFinal { curPage := curPage, limit := limit, records := records }).«open»
        = ((records.take limit).filter
            (fun record => record.disposition == "open")).map annotateOpen := by
    simpa [formatFinal] using filterOpenRecs_eq (records.take limit)
  refine ⟨hopen, ?_⟩
  intro r hr
  rw [hopen] at hr
  obtain ⟨s, hs, rfl⟩ := List.mem_map.mp hr
  have hdisp : s.disposition = "open" := by
    simpa using (List.mem_filter.mp hs).2
  refine ⟨hdisp, ?_⟩
  show some (isPrimeColor s.color) = some true ↔ _
  rw [Option.some_inj]
  exact isPrimeColor_iff s.color

/-- Closed instance of `formatFinal_open`: a red open record comes out
open-dispositioned with `isPrimary = true` possible exactly at its color. -/
theorem formatFinal_open_witness :
    (annotateOpen ⟨1, "red", "open", none⟩).disposition = "open" ∧
    ((annotateOpen ⟨1, "red", "open", none⟩).isPrimary = some true ↔
      ((annotateOpen ⟨1, "red", "open", none⟩).color = "red" ∨
       (annotateOpen ⟨1, "red", "open", none⟩).color = "blue" ∨
       (annotateOpen ⟨1, "red", "open", none⟩).color = "yellow")) :=
  (formatFinal_open 1 10 [⟨1, "red", "open", none⟩]).2
    (annotateOpen ⟨1, "red", "open", none⟩) (by decide)

/-- Claim C7: `closedPrimaryCount` counts exactly the closed primary records of
the first-`limit` slice; records beyond the limit never contribute (truncating
the input to the limit leaves the count unchanged). -/
theorem formatFinal_closedPrimaryCount (curPage : Int) (limit : Nat) (records : List Record) :
    (formatFinal { curPage := curPage, limit := limit, records := records }).closedPrimaryCount
      = (records.take limit).countP
          (fun record => record.disposition == "closed" && isPrimeColor record.color) ∧
    (formatFinal { curPage := curPage, limit := limit, records := records }).closedPrimaryCount
      = (formatFinal
          { curPage := curPage, limit := limit,
            records := records.take limit }).closedPrimaryCount := by
  constructor
  · simp [formatFinal, getClosedPrime, List.countP_eq_length_filter]
  · simp [formatFinal, List.take_take]

/-- Claim C8: every failure in the chain — a transport error or bad-status
throw surfaced by `getRecords`, or any rejection reaching the final `.catch` —
makes `retrieve` resolve with `undefined` and log the diagnostic; and a status
outside `[200, 300)` makes `verifyStatus` throw the response's `statusText`. -/
theorem retrieve_error_handling :
    (∀ (options : RetrieveOptions) (fetchResult : Except String Response) (e : String),
      getRecords fetchResult = Except.error e →
        retrieve options fetchResult = (none, [errorLog e])) ∧
    (∀ (result : Except String FormattedPage) (e : String),
      result = Except.error e → catchLog result = (none, [errorLog e])) ∧
    (∀ response : Response, ¬ (200 ≤ response.status ∧ response.status < 300) →
      verifyStatus response = Except.error response.statusText) := by
  refine ⟨?_, ?_, ?_⟩
  · intro options fetchResult e h
    unfold retrieve
    rw [h]
    rfl
  · intro result e h
    rw [h]
    rfl
  · intro response h
    unfold verifyStatus
    rw [if_neg h]

/-- Closed instance of `retrieve_error_handling`: a transport failure resolves
to `undefined` with the diagnostic logged. -/
theorem retrieve_error_handling_witness :
    retrieve {} (Except.error "network failure")
      = (none, [errorLog "network failure"]) :=
  retrieve_error_handling.1 {} (Except.error "network failure") "network failure" rfl

/-- Counterexample to claim C9 as stated: at `page = 0 < 1` with positive
limit `10`, the computed offset is `-10`, not `0`. -/
theorem calcOffset_page_zero_counterexample :
    (0 : Int) < 1 ∧ 0 < defaults.limit ∧ calcOffset 0 defaults.limit ≠ 0 := by
  decide

/-- Claim C9 amended: for every `page < 1` and every positive `limit`,
`calcOffset` silently returns the unguarded value `(page - 1) * limit`, which
is negative — there is no clamping to `0`. -/
theorem calcOffset_page_lt_one (page : Int) (limit : Nat)
    (hp : page < 1) (hl : 0 < limit) :
    calcOffset page limit = (page - 1) * limit ∧ calcOffset page limit < 0 := by
  refine ⟨rfl, ?_⟩
  have h1 : page - 1 < 0 := by omega
  have h2 : (0 : Int) < (limit : Int) := by exact_mod_cast hl
  exact mul_neg_of_neg_of_pos h1 h2

/-- Closed instance of `calcOffset_page_lt_one`: page 0 with limit 10 gives a
negative offset. -/
theorem calcOffset_page_lt_one_witness :
    calcOffset 0 10 = (0 - 1) * 10 ∧ calcOffset 0 10 < 0 :=
  calcOffset_page_lt_one 0 10 (by decide) (by decide)

/-- Claim C10: the `colors` option only reaches the query URL — the transform
of fetched records is identical for any two `colors` options, `buildUrlOpts`
passes `colors` through to the URL untouched, and a sliced record whose color
is outside the requested set still lands in `ids`, in `open` when open, and in
`closedPrimaryCount` when closed with a primary color. -/
theorem colors_do_not_filter_results :
    (∀ (fetchResult : Except String Response) (page : Option Int)
        (c1 c2 : Option (List String)),
      retrieve { page := page, colors := c1 } fetchResult
        = retrieve { page := page, colors := c2 } fetchResult) ∧
    (∀ o : BuildOpts, (buildUrlOpts o).colorList = o.colors.getD defaults.colors) ∧
    (∀ (colors : List String) (curPage : Int) (limit : Nat) (records : List Record)
        (r : Record), r ∈ records.take limit → r.color ∉ colors →
      (r.id ∈ (formatFinal { curPage := curPage, limit := limit, records := records }).ids ∧
       (r.disposition = "open" →
         annotateOpen r
           ∈ (formatFinal { curPage := curPage, limit := limit, records := records }).«open») ∧
       (r.disposition = "closed" → isPrimeColor r.color = true →
         0 < (formatFinal
              { curPage := curPage, limit := limit,
                records := records }).closedPrimaryCount))) := by
  refine ⟨fun _ _ _ _ => rfl, fun _ => rfl, ?_⟩
  intro colors curPage limit records r hr hc
  refine ⟨?_, ?_, ?_⟩
  · show r.id ∈ getIds (records.take limit)
    exact List.mem_map.mpr ⟨r, hr, rfl⟩
  · intro hdisp
    show annotateOpen r ∈ filterOpenRecs (records.take limit)
    rw [filterOpenRecs_eq]
    exact List.mem_map.mpr ⟨r, List.mem_filter.mpr ⟨hr, by simp [hdisp]⟩, rfl⟩
  · intro hdisp hprime
    show 0 < (getClosedPrime (records.take limit)).length
    have hmem : r ∈ getClosedPrime (records.take limit) :=
      List.mem_filter.mpr ⟨hr, by simp [getClosedPrime, hdisp, hprime]⟩
    exact List.length_pos.mpr (fun hnil => by simp [hnil] at hmem)

/-- Closed instance of `colors_do_not_filter_results`: a green open record,
with green outside the requested colors `["red"]`, still appears in `ids` and
`open`. -/
theorem colors_do_not_filter_results_witness :
    ((⟨1, "green", "open", none⟩ : Record).id
        ∈ (formatFinal
            { curPage := 1, limit := 10,
              records := [⟨1, "green", "open", none⟩] }).ids ∧
     ((⟨1, "green", "open", none⟩ : Record).disposition = "open" →
       annotateOpen ⟨1, "green", "open", none⟩
         ∈ (formatFinal
             { curPage := 1, limit := 10,
               records := [⟨1, "green", "open", none⟩] }).«open») ∧
     ((⟨1, "green", "open", none⟩ : Record).disposition = "closed" →
       isPrimeColor (⟨1, "green", "open", none⟩ : Record).color = true →
       0 < (formatFinal
            { curPage := 1, limit := 10,
              records := [⟨1, "green", "open", none⟩] }).closedPrimaryCount)) :=
  colors_do_not_filter_results.2.2 ["red"] 1 10 [⟨1, "green", "open", none⟩]
    ⟨1, "green", "open", none⟩ (by decide) (by decide)
